import Mathlib

/-!
Verification of the persona-selection and prompt-assembly logic of
`app.py` (a Streamlit + LangChain demo).  The Python source is embedded
shallowly: the persona dictionary becomes an association list, the
credential sources and the external chat-completion collaborator become
fields of an explicit context record, and `run_expert_llm` becomes a
pure function that also records the requests it issued to the
collaborator.
-/

/-- The ASCII whitespace characters recognised by Python's `str.strip()`. -/
def pyIsSpace (c : Char) : Bool :=
  c == ' ' || c == '\t' || c == '\n' || c == '\r' || c == '\x0b' || c == '\x0c'

/-- Python's `str.strip()`: remove leading and trailing whitespace. -/
def pyStrip (s : String) : String :=
  String.mk (List.rdropWhile pyIsSpace (List.dropWhile pyIsSpace s.data))

/-- The instruction string for persona `"A"` (real-estate investment advisor),
the adjacent Python string literals concatenated. -/
def expert_message_A : String :=
  "あなたは経験豊富な不動産投資アドバイザーです。市場調査、収益性評価（表面・実質利回り）、資金計画、融資、出口戦略、税務上の留意点などを、わかりやすく段階的に助言してください。数値が必要な場合は、仮定条件を明示し簡便な試算も提案してください。"

/-- The instruction string for persona `"B"` (nutrition science expert). -/
def expert_message_B : String :=
  "あなたは科学的根拠を重視する栄養学エキスパートです。目的（減量・増量・健康維持等）に応じ、摂取カロリー、PFCバランス、食事例、買い物リスト、注意点を、具体的かつ実行可能な形で提示してください。一般向けの説明で専門用語は短く補足してください。"

/-- The default instruction used by `dict.get` when the selector is unmapped. -/
def default_system_message : String :=
  "あなたは有能なアシスタントです。丁寧かつ具体的に回答してください。"

/-- The `expert_system_messages` dictionary literal of `run_expert_llm`. -/
def expert_system_messages : List (String × String) :=
  [("A", expert_message_A), ("B", expert_message_B)]

/-- Python `dict` lookup on an association list: the value stored at `k`,
if `k` is present. -/
def dictFind (d : List (String × String)) (k : String) : Option String :=
  (d.find? (fun kv => decide (kv.1 = k))).map Prod.snd

/-- `expert_system_messages.get(expert_choice, default)`: the persona-lookup
step of `run_expert_llm`. -/
def resolve_system_text (expert_choice : String) : String :=
  (dictFind expert_system_messages expert_choice).getD default_system_message

/-- The human-role template string of the `ChatPromptTemplate`
(single trailing `{user_input}` placeholder). -/
def human_message_template : String :=
  "以下のユーザー入力に基づき、専門家として最適なアドバイスを提示してください。\n\nユーザー入力: {user_input}"

/-- Everything of the human-role template before the placeholder. -/
def human_message_preamble : String :=
  "以下のユーザー入力に基づき、専門家として最適なアドバイスを提示してください。\n\nユーザー入力: "

/-- The unformatted `ChatPromptTemplate.from_messages` list built by
`run_expert_llm` before the credential check. -/
def prompt_messages (system_text : String) : List (String × String) :=
  [("system", system_text), ("human", human_message_template)]

/-- The messages after `chain.invoke({"user_input": input_text})` formats the
template: the trailing placeholder is replaced by the raw input text. -/
def format_prompt (system_text input_text : String) : List (String × String) :=
  [("system", system_text), ("human", human_message_preamble ++ input_text)]

/-- Failures the external completion collaborator may raise
(never caught by `run_expert_llm`). -/
inductive LLMError where
  | network (msg : String)
  | quota (msg : String)
  | malformed (msg : String)
deriving DecidableEq, Repr

/-- One request to the external chat-completion collaborator: the formatted
messages plus the fixed model identifier, sampling temperature and the
acquired credential. -/
structure ChatRequest where
  messages : List (String × String)
  model : String
  temperature : ℚ
  api_key : String
deriving DecidableEq, Repr

/-- The ambient world read by `run_expert_llm`: `st.secrets`, `os.getenv`,
and the chat-completion collaborator behind `chain.invoke`. -/
structure Ctx where
  secrets : String → Option String
  getenv : String → Option String
  chat : ChatRequest → Except LLMError String

/-- The diagnostic returned when no credential is configured. -/
def missing_key_message : String :=
  "⚠️ OpenAI APIキーが設定されていません。\n・ローカル: 環境変数 OPENAI_API_KEY を設定してください。\n・Streamlit Community Cloud: Secrets に OPENAI_API_KEY を追加してください。"

/-- `st.secrets.get("OPENAI_API_KEY", os.getenv("OPENAI_API_KEY"))`: the
secrets-store value when the key is present, the environment value otherwise. -/
def lookup_api_key (ctx : Ctx) : Option String :=
  match ctx.secrets "OPENAI_API_KEY" with
  | some v => some v
  | none => ctx.getenv "OPENAI_API_KEY"

/-- Observable outcome of one `run_expert_llm` invocation: the prompt built
before the credential check, the returned value (or propagated error), and
the requests issued to the collaborator. -/
structure RunResult where
  prompt : List (String × String)
  result : Except LLMError String
  calls : List ChatRequest

/-- Embedding of `run_expert_llm(input_text, expert_choice)`. -/
def run_expert_llm (ctx : Ctx) (input_text expert_choice : String) : RunResult :=
  match lookup_api_key ctx with
  | none =>
      { prompt := prompt_messages (resolve_system_text expert_choice)
        result := .ok missing_key_message
        calls := [] }
  | some k =>
      if k = "" then
        { prompt := prompt_messages (resolve_system_text expert_choice)
          result := .ok missing_key_message
          calls := [] }
      else
        match ctx.chat { messages := format_prompt (resolve_system_text expert_choice) input_text
                         model := "gpt-4o-mini"
                         temperature := 4/10
                         api_key := k } with
        | .ok answer =>
            { prompt := prompt_messages (resolve_system_text expert_choice)
              result := .ok (pyStrip answer)
              calls := [{ messages := format_prompt (resolve_system_text expert_choice) input_text
                          model := "gpt-4o-mini"
                          temperature := 4/10
                          api_key := k }] }
        | .error e =>
            { prompt := prompt_messages (resolve_system_text expert_choice)
              result := .error e
              calls := [{ messages := format_prompt (resolve_system_text expert_choice) input_text
                          model := "gpt-4o-mini"
                          temperature := 4/10
                          api_key := k }] }

/-- What the module-level submit branch produces. -/
inductive SubmitOutcome where
  | warned
  | answered (run : RunResult)

/-- The `if st.button("送信")` branch: warn on blank input, otherwise call
`run_expert_llm(user_input.strip(), expert_choice)`. -/
def handle_submit (ctx : Ctx) (user_input expert_choice : String) : SubmitOutcome :=
  if pyStrip user_input = "" then .warned
  else .answered (run_expert_llm ctx (pyStrip user_input) expert_choice)

/-- The collaborator requests issued during one submit-branch execution. -/
def submit_calls : SubmitOutcome → List ChatRequest
  | .warned => []
  | .answered r => r.calls

/-- A context with no credential anywhere and a collaborator that answers. -/
def ctx_no_key : Ctx :=
  { secrets := fun _ => none
    getenv := fun _ => none
    chat := fun _ => .ok "了解しました。" }

/-- A context whose secrets store holds a key while the environment holds a
different value, with an echoing collaborator. -/
def ctx_both_keys : Ctx :=
  { secrets := fun _ => some "sk-secrets"
    getenv := fun _ => some "sk-environment"
    chat := fun _ => .ok "  回答です。  " }

/-- A context whose secrets store holds the empty string. -/
def ctx_empty_secret : Ctx :=
  { secrets := fun _ => some ""
    getenv := fun _ => some "sk-environment"
    chat := fun _ => .ok "answer" }

/-- A context with a credential whose collaborator always raises. -/
def ctx_err : Ctx :=
  { secrets := fun _ => some "sk-secrets"
    getenv := fun _ => none
    chat := fun _ => .error (.network "connection reset") }

/-- The template splits as preamble ++ placeholder. -/
theorem human_message_template_eq :
    human_message_template = human_message_preamble ++ "{user_input}" := rfl

/-- In every branch of `run_expert_llm`, the prompt built before the
credential check carries the resolved persona instruction. -/
theorem run_expert_llm_prompt (ctx : Ctx) (i c : String) :
    (run_expert_llm ctx i c).prompt = prompt_messages (resolve_system_text c) := by
  unfold run_expert_llm
  cases lookup_api_key ctx with
  | none => rfl
  | some k =>
      dsimp only
      by_cases hk : k = ""
      · rw [if_pos hk]
      · rw [if_neg hk]
        cases ctx.chat _ <;> rfl

/-- When the credential lookup is absent or empty, `run_expert_llm` returns
the diagnostic and issues no collaborator call. -/
theorem run_expert_llm_no_key (ctx : Ctx) (i c : String)
    (h : lookup_api_key ctx = none ∨ lookup_api_key ctx = some "") :
    (run_expert_llm ctx i c).result = .ok missing_key_message ∧
      (run_expert_llm ctx i c).calls = [] := by
  unfold run_expert_llm
  rcases h with h | h <;> rw [h] <;> exact ⟨rfl, rfl⟩

/-- With a truthy credential `k`, `run_expert_llm` issues exactly the request
holding the formatted prompt, model id, temperature and `k`, and maps the
collaborator's outcome through the strip-or-propagate step. -/
theorem run_expert_llm_with_key (ctx : Ctx) (i c k : String)
    (hs : lookup_api_key ctx = some k) (hk : k ≠ "") :
    (run_expert_llm ctx i c).calls =
      [{ messages := format_prompt (resolve_system_text c) i
         model := "gpt-4o-mini"
         temperature := 4/10
         api_key := k }] ∧
    (run_expert_llm ctx i c).result =
      (match ctx.chat { messages := format_prompt (resolve_system_text c) i
                        model := "gpt-4o-mini"
                        temperature := 4/10
                        api_key := k } with
       | .ok answer => .ok (pyStrip answer)
       | .error e => .error e) := by
  unfold run_expert_llm
  rw [hs]
  simp only [hk, ite_false, if_neg]
  split <;> exact ⟨rfl, rfl⟩

/-- C1: the persona lookup is total: `"A"` and `"B"` map to exactly their
fixed instruction strings, and every other selector maps to exactly the
fixed default instruction string. -/
theorem c1_persona_resolver_total (c : String) :
    resolve_system_text c =
      if c = "A" then expert_message_A
      else if c = "B" then expert_message_B
      else default_system_message := by
  by_cases hA : c = "A"
  · simp [resolve_system_text, dictFind, expert_system_messages, List.find?, hA]
  · by_cases hB : c = "B"
    · simp [resolve_system_text, dictFind, expert_system_messages, List.find?, hA, hB]
    · simp [resolve_system_text, dictFind, expert_system_messages, List.find?, hA, hB,
        Ne.symm hA, Ne.symm hB]

/-- C2: with no credential in either lookup source, `run_expert_llm` returns
the fixed diagnostic string as a normal return value and issues no call to
the external completion collaborator. -/
theorem c2_missing_credential_diagnostic (ctx : Ctx) (i c : String)
    (hs : ctx.secrets "OPENAI_API_KEY" = none)
    (he : ctx.getenv "OPENAI_API_KEY" = none) :
    (run_expert_llm ctx i c).result = .ok missing_key_message ∧
      (run_expert_llm ctx i c).calls = [] := by
  apply run_expert_llm_no_key
  left
  unfold lookup_api_key
  rw [hs, he]

/-- Witness for C2 at a concrete context and input. -/
theorem c2_missing_credential_diagnostic_witness :
    ctx_no_key.secrets "OPENAI_API_KEY" = none ∧
      ctx_no_key.getenv "OPENAI_API_KEY" = none ∧
      ((run_expert_llm ctx_no_key "都心中古ワンルーム投資の注意点" "A").result =
          .ok missing_key_message ∧
        (run_expert_llm ctx_no_key "都心中古ワンルーム投資の注意点" "A").calls = []) :=
  ⟨rfl, rfl, c2_missing_credential_diagnostic ctx_no_key _ _ rfl rfl⟩

/-- C4: a blank or whitespace-only submission short-circuits to the warning
before `run_expert_llm` is ever invoked: no completion call is made. -/
theorem c4_blank_input_short_circuits (ctx : Ctx) (ui c : String)
    (h : pyStrip ui = "") :
    handle_submit ctx ui c = .warned ∧
      submit_calls (handle_submit ctx ui c) = [] := by
  unfold handle_submit
  rw [if_pos h]
  exact ⟨rfl, rfl⟩

/-- Witness for C4 at a whitespace-only input. -/
theorem c4_blank_input_short_circuits_witness :
    pyStrip " \t\n " = "" ∧
      (handle_submit ctx_both_keys " \t\n " "A" = .warned ∧
        submit_calls (handle_submit ctx_both_keys " \t\n " "A") = []) :=
  ⟨rfl, c4_blank_input_short_circuits ctx_both_keys _ _ rfl⟩

/-- C7: credential precedence: a value present in the secrets store is the
chosen credential whatever the environment holds; only when the secrets
store yields nothing is the environment variable's value used. -/
theorem c7_secrets_precedence (sec env envAlt : String → Option String)
    (ch chAlt : ChatRequest → Except LLMError String) (v : String) :
    (sec "OPENAI_API_KEY" = some v →
        lookup_api_key ⟨sec, env, ch⟩ = some v ∧
          lookup_api_key ⟨sec, envAlt, chAlt⟩ = some v) ∧
      (sec "OPENAI_API_KEY" = none →
        lookup_api_key ⟨sec, env, ch⟩ = env "OPENAI_API_KEY") := by
  constructor
  · intro h
    constructor <;> (dsimp only [lookup_api_key]; rw [h])
  · intro h
    dsimp only [lookup_api_key]
    rw [h]

/-- Witness for C7: the secrets value wins over a populated environment, and
the environment value is used when the secrets store is empty. -/
theorem c7_secrets_precedence_witness :
    lookup_api_key ctx_both_keys = some "sk-secrets" ∧
      lookup_api_key ctx_no_key = ctx_no_key.getenv "OPENAI_API_KEY" :=
  ⟨((c7_secrets_precedence ctx_both_keys.secrets ctx_both_keys.getenv
        (fun _ => none) ctx_both_keys.chat (fun _ => .ok "x") "sk-secrets").1 rfl).1,
    (c7_secrets_precedence ctx_no_key.secrets ctx_no_key.getenv
        (fun _ => none) ctx_no_key.chat (fun _ => .ok "x") "sk-secrets").2 rfl⟩

/-- C8: the persona directory consulted by `run_expert_llm` is the fixed
constant table: every invocation's prompt carries exactly the lookup in
`expert_system_messages`, so any two invocations with the same selector
consult identical key/value pairs. -/
theorem c8_persona_directory_constant (ctx₁ ctx₂ : Ctx) (i₁ i₂ c : String) :
    (run_expert_llm ctx₁ i₁ c).prompt =
        prompt_messages
          ((dictFind expert_system_messages c).getD default_system_message) ∧
      (run_expert_llm ctx₁ i₁ c).prompt = (run_expert_llm ctx₂ i₂ c).prompt := by
  refine ⟨run_expert_llm_prompt ctx₁ i₁ c, ?_⟩
  rw [run_expert_llm_prompt ctx₁ i₁ c, run_expert_llm_prompt ctx₂ i₂ c]

/-- C9: an empty-string credential from either source is treated exactly like
an absent one (truthiness, not presence): diagnostic, no collaborator call. -/
theorem c9_empty_key_treated_absent (ctx : Ctx) (i c : String)
    (h : ctx.secrets "OPENAI_API_KEY" = some "" ∨
      (ctx.secrets "OPENAI_API_KEY" = none ∧
        ctx.getenv "OPENAI_API_KEY" = some "")) :
    (run_expert_llm ctx i c).result = .ok missing_key_message ∧
      (run_expert_llm ctx i c).calls = [] := by
  apply run_expert_llm_no_key
  right
  unfold lookup_api_key
  rcases h with h | ⟨h1, h2⟩
  · rw [h]
  · rw [h1, h2]

/-- Witness for C9 at a context whose secrets store holds `""`. -/
theorem c9_empty_key_treated_absent_witness :
    (ctx_empty_secret.secrets "OPENAI_API_KEY" = some "" ∨
        (ctx_empty_secret.secrets "OPENAI_API_KEY" = none ∧
          ctx_empty_secret.getenv "OPENAI_API_KEY" = some "")) ∧
      ((run_expert_llm ctx_empty_secret "体脂肪を落とすための食事例" "B").result =
          .ok missing_key_message ∧
        (run_expert_llm ctx_empty_secret "体脂肪を落とすための食事例" "B").calls = []) :=
  ⟨Or.inl rfl, c9_empty_key_treated_absent ctx_empty_secret _ _ (Or.inl rfl)⟩

/-- The first element surviving `dropWhile p` fails `p`. -/
theorem dropWhile_head_not (p : Char → Bool) (l : List Char) (x : Char)
    (u : List Char) (h : List.dropWhile p l = x :: u) : p x = false := by
  induction l with
  | nil => simp [List.dropWhile] at h
  | cons a l ih =>
      rw [List.dropWhile_cons] at h
      by_cases ha : p a = true
      · rw [if_pos ha] at h
        exact ih h
      · rw [if_neg ha] at h
        injection h with h1 _
        subst h1
        simpa using ha

/-- Stripping (leading `dropWhile`, then trailing `rdropWhile`) is
idempotent on character lists. -/
theorem strip_list_idem (p : Char → Bool) (l : List Char) :
    List.rdropWhile p (List.dropWhile p (List.rdropWhile p (List.dropWhile p l))) =
      List.rdropWhile p (List.dropWhile p l) := by
  have hm : List.dropWhile p (List.rdropWhile p (List.dropWhile p l)) =
      List.rdropWhile p (List.dropWhile p l) := by
    rcases hr : List.rdropWhile p (List.dropWhile p l) with _ | ⟨x, u⟩
    · simp
    · obtain ⟨t, ht⟩ := List.rdropWhile_prefix p (List.dropWhile p l)
      rw [hr] at ht
      have hx : p x = false :=
        dropWhile_head_not p l x (u ++ t) (by rw [← ht]; rfl)
      rw [List.dropWhile_cons_of_neg (by simp [hx])]
  rw [hm, List.rdropWhile_idempotent]

/-- `pyStrip` is idempotent: stripping a stripped string changes nothing. -/
theorem pyStrip_idem (s : String) : pyStrip (pyStrip s) = pyStrip s :=
  congrArg String.mk (strip_list_idem pyIsSpace s.data)

/-- Every request `run_expert_llm` issues carries exactly the two formatted
messages: resolved system instruction, then preamble ++ raw input. -/
theorem run_expert_llm_calls_messages (ctx : Ctx) (i c : String)
    (req : ChatRequest) (hreq : req ∈ (run_expert_llm ctx i c).calls) :
    req.messages =
      [("system", resolve_system_text c),
        ("human", human_message_preamble ++ i)] := by
  rcases hl : lookup_api_key ctx with _ | k
  · rw [(run_expert_llm_no_key ctx i c (Or.inl hl)).2] at hreq
    simp at hreq
  · by_cases hk : k = ""
    · subst hk
      rw [(run_expert_llm_no_key ctx i c (Or.inr hl)).2] at hreq
      simp at hreq
    · rw [(run_expert_llm_with_key ctx i c k hl hk).1] at hreq
      rw [List.mem_singleton] at hreq
      subst hreq
      rfl

/-- C3: for a non-empty input, every request issued to the collaborator
carries an ordered pair of exactly two messages: first role `"system"` with
the resolved persona instruction, second role `"human"` with the input text
embedded verbatim after the fixed template preamble. -/
theorem c3_prompt_shape (ctx : Ctx) (i c : String) (_hne : i ≠ "")
    (req : ChatRequest) (hreq : req ∈ (run_expert_llm ctx i c).calls) :
    req.messages =
        [("system", resolve_system_text c),
          ("human", human_message_preamble ++ i)] ∧
      req.messages.length = 2 := by
  have h := run_expert_llm_calls_messages ctx i c req hreq
  exact ⟨h, by rw [h]; rfl⟩

/-- The concrete request issued in the C3 witness scenario. -/
def req_c3 : ChatRequest :=
  { messages := format_prompt (resolve_system_text "A") "都心中古ワンルーム投資の注意点"
    model := "gpt-4o-mini"
    temperature := 4/10
    api_key := "sk-secrets" }

/-- Witness for C3: the single request of a concrete run has exactly the
two expected messages. -/
theorem c3_prompt_shape_witness :
    ("都心中古ワンルーム投資の注意点" ≠ "") ∧
      req_c3 ∈ (run_expert_llm ctx_both_keys "都心中古ワンルーム投資の注意点" "A").calls ∧
      (req_c3.messages =
          [("system", resolve_system_text "A"),
            ("human", human_message_preamble ++ "都心中古ワンルーム投資の注意点")] ∧
        req_c3.messages.length = 2) :=
  have hmem : req_c3 ∈
      (run_expert_llm ctx_both_keys "都心中古ワンルーム投資の注意点" "A").calls :=
    List.mem_singleton.mpr rfl
  ⟨by decide, hmem,
    c3_prompt_shape ctx_both_keys "都心中古ワンルーム投資の注意点" "A" (by decide) req_c3 hmem⟩

/-- C5: with a present (truthy) credential and a collaborator that returns
`answer`, the function's result is `answer` with surrounding whitespace
stripped, and the strip is idempotent. -/
theorem c5_result_is_trimmed (ctx : Ctx) (i c k answer : String)
    (hs : lookup_api_key ctx = some k) (hk : k ≠ "")
    (hchat : ∀ r, ctx.chat r = .ok answer) :
    (run_expert_llm ctx i c).result = .ok (pyStrip answer) ∧
      pyStrip (pyStrip answer) = pyStrip answer := by
  refine ⟨?_, pyStrip_idem answer⟩
  rw [(run_expert_llm_with_key ctx i c k hs hk).2, hchat]

/-- Witness for C5 at a collaborator echoing a whitespace-padded answer. -/
theorem c5_result_is_trimmed_witness :
    lookup_api_key ctx_both_keys = some "sk-secrets" ∧
      "sk-secrets" ≠ "" ∧
      (∀ r, ctx_both_keys.chat r = .ok "  回答です。  ") ∧
      ((run_expert_llm ctx_both_keys "質問" "A").result = .ok (pyStrip "  回答です。  ") ∧
        pyStrip (pyStrip "  回答です。  ") = pyStrip "  回答です。  ") :=
  ⟨rfl, by decide, fun _ => rfl,
    c5_result_is_trimmed ctx_both_keys "質問" "A" "sk-secrets" "  回答です。  "
      rfl (by decide) (fun _ => rfl)⟩

/-- C6: an error raised by the external collaborator is not caught: it is
the function's outcome, and in particular the outcome is never a silently
substituted empty string. -/
theorem c6_collaborator_error_propagates (ctx : Ctx) (i c k : String)
    (e : LLMError) (hs : lookup_api_key ctx = some k) (hk : k ≠ "")
    (hchat : ∀ r, ctx.chat r = .error e) :
    (run_expert_llm ctx i c).result = .error e ∧
      (run_expert_llm ctx i c).result ≠ .ok "" := by
  have h : (run_expert_llm ctx i c).result = .error e := by
    rw [(run_expert_llm_with_key ctx i c k hs hk).2, hchat]
  refine ⟨h, ?_⟩
  rw [h]
  exact fun hco => Except.noConfusion hco

/-- Witness for C6 at a collaborator that raises a network failure. -/
theorem c6_collaborator_error_propagates_witness :
    lookup_api_key ctx_err = some "sk-secrets" ∧
      (∀ r, ctx_err.chat r = .error (.network "connection reset")) ∧
      ((run_expert_llm ctx_err "質問です" "B").result =
          .error (.network "connection reset") ∧
        (run_expert_llm ctx_err "質問です" "B").result ≠ .ok "") :=
  ⟨rfl, fun _ => rfl,
    c6_collaborator_error_propagates ctx_err "質問です" "B" "sk-secrets"
      (.network "connection reset") rfl (by decide) (fun _ => rfl)⟩

/-- C10: a submission that passes the empty-input check hands
`run_expert_llm` the stripped input; stripping is a fixed point on it, and
every issued request embeds exactly the stripped text after the preamble. -/
theorem c10_submitted_text_stripped (ctx : Ctx) (ui c : String)
    (h : pyStrip ui ≠ "") :
    handle_submit ctx ui c = .answered (run_expert_llm ctx (pyStrip ui) c) ∧
      pyStrip (pyStrip ui) = pyStrip ui ∧
      ∀ req ∈ submit_calls (handle_submit ctx ui c),
        req.messages =
          [("system", resolve_system_text c),
            ("human", human_message_preamble ++ pyStrip ui)] := by
  have hs : handle_submit ctx ui c = .answered (run_expert_llm ctx (pyStrip ui) c) := by
    unfold handle_submit
    rw [if_neg h]
  refine ⟨hs, pyStrip_idem ui, ?_⟩
  intro req hreq
  rw [hs] at hreq
  exact run_expert_llm_calls_messages ctx (pyStrip ui) c req hreq

/-- Witness for C10 at a whitespace-padded concrete input. -/
theorem c10_submitted_text_stripped_witness :
    pyStrip "  体脂肪を落とすための食事例  " ≠ "" ∧
      (handle_submit ctx_both_keys "  体脂肪を落とすための食事例  " "B" =
          .answered (run_expert_llm ctx_both_keys
            (pyStrip "  体脂肪を落とすための食事例  ") "B") ∧
        pyStrip (pyStrip "  体脂肪を落とすための食事例  ") =
          pyStrip "  体脂肪を落とすための食事例  " ∧
        ∀ req ∈ submit_calls (handle_submit ctx_both_keys "  体脂肪を落とすための食事例  " "B"),
          req.messages =
            [("system", resolve_system_text "B"),
              ("human", human_message_preamble ++ pyStrip "  体脂肪を落とすための食事例  ")]) :=
  ⟨by decide,
    c10_submitted_text_stripped ctx_both_keys "  体脂肪を落とすための食事例  " "B" (by decide)⟩
